import Mathlib

/-!
Verification of the vec2text upstream repository fragment: the slurm shard
launcher (experiment_scripts/run_slurm_precompute_train_hypotheses.py) and the
corrector trainer (trainers/corrector.py), shallowly embedded in Lean 4.
Definitions mirror the Python source; theorems settle the specification claims.
-/

/-! ## Shard-and-submit launcher -/

def MSMARCO_LENGTH : Nat := 8753404

def N_SHARDS : Nat := 32

/-- Python computes `math.ceil(MSMARCO_LENGTH / N_SHARDS)`; the float division
`8753404 / 32` is exact (the divisor is a power of two), so this equals natural
ceiling division. -/
def shard_length : Nat := (MSMARCO_LENGTH + N_SHARDS - 1) / N_SHARDS

/-- The `start_idx = i * shard_length` values produced by the launcher loop
`for i in range(N_SHARDS)`. -/
def start_idxs : List Nat := (List.range N_SHARDS).map (fun i => i * shard_length)

/-- The fixed `slurm_kwargs` resource dictionary passed to every submission. -/
structure SlurmKwargs where
  partition : String
  gres : String
  ntasks : Nat
  cpus_per_task : Nat
  mem : String
  time : String
deriving DecidableEq

def launcherSlurmKwargs : SlurmKwargs :=
  { partition := "gpu,rush"
  , gres := "gpu:a6000:1"
  , ntasks := 1
  , cpus_per_task := 4
  , mem := "48G"
  , time := "168:00:00" }

/-- One cluster job submission performed by `Slurm(...).run(...)`. -/
structure Submission where
  job_name : String
  cmd : String
  kwargs : SlurmKwargs
  flags : List String
deriving DecidableEq

/-- `BASE_PYTHON_CMD.format(start_idx=..., num_samples=...)`: the triple-quoted
template with its backslash line continuations resolved and the two fields
substituted. -/
def basePythonCmd (start_idx num_samples : Nat) : String :=
  "\npython precompute_train_hypotheses.py --start_idx " ++ toString start_idx ++
    " --num_samples " ++ toString num_samples ++ "\n"

/-- `run_cmd(cmd, job_desc)` from the launcher: prints the job name and trimmed
command, and submits the job exactly when `ACTUALLY_RUN_COMMAND` holds.  The
wall-clock timestamp from `datetime.now()` is passed in as `dt`.  Returns the
printed lines and the submissions performed. -/
def runCommand (actuallyRun : Bool) (dt cmd job_desc : String) :
    List String × List Submission :=
  let job_name := dt ++ " " ++ job_desc
  let prints := ["job_name >> " ++ job_name, "cmd >> " ++ cmd.trim, "\n\n"]
  if actuallyRun then
    (prints, [{ job_name := job_name, cmd := cmd, kwargs := launcherSlurmKwargs
              , flags := ["requeue"] }])
  else
    (prints, [])

/-- One iteration of the launcher loop for shard index `i`. -/
def launcherStep (actuallyRun : Bool) (dt : String) (i : Nat) :
    List String × List Submission :=
  let start_idx := i * shard_length
  let cmd := (basePythonCmd start_idx shard_length).replace "\n" " "
  let job_desc := String.intercalate "."
    ["msmarco_precompute", toString start_idx, toString shard_length]
  runCommand actuallyRun dt cmd job_desc

/-- The final line printed after the loop. -/
def launcherFinalMessage (actuallyRun : Bool) : String :=
  if actuallyRun then
    "successfully queued " ++ toString N_SHARDS ++ " jobs."
  else
    "successfully queued " ++ toString N_SHARDS ++ " jobs. (pretend)"

structure LauncherRun where
  prints : List String
  submissions : List Submission
  finalMessage : String

/-- The whole launcher script run with the given `ACTUALLY_RUN_COMMAND` value
(`dt` abstracts the timestamps). -/
def launcherRun (actuallyRun : Bool) (dt : String) : LauncherRun :=
  let steps := (List.range N_SHARDS).map (launcherStep actuallyRun dt)
  { prints := (steps.map Prod.fst).flatten ++ [launcherFinalMessage actuallyRun]
  , submissions := (steps.map Prod.snd).flatten
  , finalMessage := launcherFinalMessage actuallyRun }

/-- Substring test on character lists, used to state the console-output claims. -/
def hasSubstring (l pat : List Char) : Bool :=
  match l with
  | [] => pat.isEmpty
  | _ :: t => pat.isPrefixOf l || hasSubstring t pat

def strContainsB (s pat : String) : Bool :=
  hasSubstring s.data pat.data

/-! ## Corrector trainer: data model

Token-id tensors are embedded as lists of rows of integers; a shape `(B, L)`
tensor has `B` rows of length `L`.  Boolean tensors (attention masks obtained
by comparison) are embedded as 0/1 integer tensors. -/

abbrev Tensor2 := List (List Int)

/-- Number of rows: the first component of `tensor.shape` for a 2-d tensor. -/
def tRows (t : Tensor2) : Nat := t.length

/-- Row length: the second component of `tensor.shape` (the tensors handled by
the source are rectangular, so the first row is representative). -/
def tCols (t : Tensor2) : Nat := (t.headD []).length

/-- `t` is a rectangular `(B, L)` tensor. -/
def tShape (t : Tensor2) (B L : Nat) : Prop :=
  t.length = B ∧ ∀ r ∈ t, r.length = L

instance (t : Tensor2) (B L : Nat) : Decidable (tShape t B L) := by
  unfold tShape; infer_instance

/-- `torch.ones((B, L))`. -/
def onesTensor (B L : Nat) : Tensor2 :=
  List.replicate B (List.replicate L 1)

/-- `t[:, 1:]`. -/
def dropFirstCol (t : Tensor2) : Tensor2 := t.map (List.drop 1)

/-- `torch.cat((a, b), dim=1)`. -/
def hcat (a b : Tensor2) : Tensor2 := List.zipWith (fun r s => r ++ s) a b

/-- `torch.ones((B, 1), dtype=torch.long) * eos_token_id`. -/
def eosTokens (batch_size : Nat) (eos_token_id : Int) : Tensor2 :=
  List.replicate batch_size [eos_token_id]

/-- `torch.cat((gen[:, 1:], eos_tokens), dim=1)`: the hypothesis ids built in
`compute_loss` from the inversion model's generation. -/
def hypothesisInputIds (gen : Tensor2) (batch_size : Nat) (eos_token_id : Int) :
    Tensor2 :=
  hcat (dropFirstCol gen) (eosTokens batch_size eos_token_id)

/-- `hypothesis_input_ids != pad_token_id`, as a 0/1 tensor. -/
def neqMask (t : Tensor2) (pad : Int) : Tensor2 :=
  t.map (fun r => r.map (fun x => if x = pad then 0 else 1))

/-- Precision flags of a `TrainingArguments` object (the part the corrector
constructor consults). -/
structure TrainingArguments where
  fp16 : Bool
  bf16 : Bool
deriving DecidableEq

/-- Mutable attributes of the inversion trainer's model that the corrector
reads or writes: per-parameter `requires_grad` flags, the
`use_frozen_embeddings_as_input` flag, and the embedder tokenizer's special
token ids. -/
structure InversionModel where
  params_requires_grad : List Bool
  use_frozen_embeddings_as_input : Bool
  embedder_eos_token_id : Int
  embedder_pad_token_id : Int
deriving DecidableEq

/-- Modelled from the spec: `freeze_params` lives in `models/model_utils.py`,
which is not under `src/`; per the spec, construction freezes the inversion
model, i.e. every parameter is marked non-trainable. -/
def freeze_params (m : InversionModel) : InversionModel :=
  { m with params_requires_grad := m.params_requires_grad.map (fun _ => false) }

/-- A batch of training inputs (`inputs` dict), with the optionally attached
`frozen_embeddings` entry. -/
structure Batch (Emb : Type) where
  input_ids : Tensor2
  attention_mask : Tensor2
  embedder_input_ids : Tensor2
  embedder_attention_mask : Tensor2
  labels : Tensor2
  frozen_embeddings : Option Emb
deriving DecidableEq

/-- The dict literal `compute_loss` passes to `inversion_trainer.model.generate`. -/
structure InvGenInputs (Emb : Type) where
  embedder_input_ids : Tensor2
  embedder_attention_mask : Tensor2
  frozen_embeddings : Emb

/-- The fixed `generation_kwargs` dict literal inside `compute_loss`. -/
structure GenerationKwargs where
  early_stopping : Bool
  num_beams : Nat
  do_sample : Bool
  no_repeat_ngram_size : Nat

def computeLossGenerationKwargs : GenerationKwargs :=
  { early_stopping := false, num_beams := 1, do_sample := false
  , no_repeat_ngram_size := 3 }

/-- The external collaborators, treated as deterministic functions: the
embedding model (`call_embedding_model`), the corrector model (`self.model`),
the inversion model's `generate` and forward pass, and the inversion trainer's
`generate`.  `Emb` is the embedding type, `Loss` the loss type, `GK` the type
of caller-supplied generation kwargs. -/
structure ExternalModels (Emb Loss GK : Type) where
  call_embedding_model : Tensor2 → Tensor2 → Emb
  corrector_model : Emb → Tensor2 → Tensor2 → Emb
  inversion_generate : InvGenInputs Emb → GenerationKwargs → Tensor2
  inversion_forward : Tensor2 → Tensor2 → Tensor2 → Emb → Loss
  inversion_trainer_generate : Batch Emb → GK → Tensor2

/-- A constructed `CorrectorTrainer`: the external models, the (mutated)
inversion model state, the corrector's training arguments (`self.args`) and the
inversion trainer's (`self.inversion_trainer.args`). -/
structure CorrectorTrainer (Emb Loss GK : Type) where
  M : ExternalModels Emb Loss GK
  invModel : InversionModel
  args : TrainingArguments
  inv_args : TrainingArguments

/-! ## Gradient-mode instrumentation

Model calls are executed in a state monad whose state carries the ambient
gradient-tracking flag (`torch.is_grad_enabled()`) and a trace of model calls,
each tagged with the flag in force when it ran.  `with torch.no_grad():`
disables the flag for the extent of the block and restores it afterwards. -/

structure GradState where
  enabled : Bool
  calls : List (String × Bool)
deriving DecidableEq

abbrev GradM (α : Type) := StateM GradState α

/-- Run an external model: record the call with the ambient gradient flag and
return its (deterministic) value. -/
def callModel {α : Type} (name : String) (v : α) : GradM α := fun s =>
  (v, { s with calls := s.calls ++ [(name, s.enabled)] })

/-- `with torch.no_grad(): ...` -/
def noGrad {α : Type} (m : GradM α) : GradM α := fun s =>
  let saved := s.enabled
  let r := m { s with enabled := false }
  (r.1, { r.2 with enabled := saved })

/-! ## Corrector trainer: operations -/

/-- Outcome of `CorrectorTrainer.__init__`: the final state of the (mutated)
caller-supplied inversion model, whether `super().__init__` ran, and either the
constructed trainer or the text of the failed assertion. -/
structure InitOutcome (Emb Loss GK : Type) where
  invModel : InversionModel
  baseInitialized : Bool
  result : Except String (CorrectorTrainer Emb Loss GK)

/-- `CorrectorTrainer.__init__`, statement by statement: freeze the inversion
model's parameters, set `use_frozen_embeddings_as_input`, run
`super().__init__` (modelled as a flag; `BaseTrainer` is not under `src/`),
cache references, and only then check the two precision assertions. -/
def correctorInit {Emb Loss GK : Type} (M : ExternalModels Emb Loss GK)
    (invModel : InversionModel) (inv_args args : TrainingArguments) :
    InitOutcome Emb Loss GK :=
  let m := freeze_params invModel
  let m := { m with use_frozen_embeddings_as_input := true }
  let baseInitialized := true
  if args.fp16 = inv_args.fp16 then
    if args.bf16 = inv_args.bf16 then
      { invModel := m, baseInitialized := baseInitialized
      , result := Except.ok { M := M, invModel := m, args := args, inv_args := inv_args } }
    else
      { invModel := m, baseInitialized := baseInitialized
      , result := Except.error "assert self.args.bf16 == self.inversion_trainer.args.bf16" }
  else
    { invModel := m, baseInitialized := baseInitialized
    , result := Except.error "assert self.args.fp16 == self.inversion_trainer.args.fp16" }

/-- `CorrectorTrainer.generate(inputs, generation_kwargs)`.  Returns the
generated tensor, the caller's `inputs` dict as it stands after the call (the
source mutates it in place), and the trainer (whose attributes the source does
not touch). -/
def CorrectorTrainer.generate {Emb Loss GK : Type}
    (t : CorrectorTrainer Emb Loss GK) (inputs : Batch Emb)
    (generation_kwargs : GK) :
    GradM (Tensor2 × Batch Emb × CorrectorTrainer Emb Loss GK) := do
  let p ← noGrad (do
    let frozen_embeddings ← callModel "call_embedding_model"
      (t.M.call_embedding_model inputs.embedder_input_ids
        inputs.embedder_attention_mask)
    let new_embeddings ← callModel "corrector_model"
      (t.M.corrector_model frozen_embeddings inputs.input_ids
        inputs.attention_mask)
    pure (frozen_embeddings, new_embeddings))
  let inputs := { inputs with frozen_embeddings := some p.2 }
  let out ← callModel "inversion_trainer.generate"
    (t.M.inversion_trainer_generate inputs generation_kwargs)
  pure (out, inputs, t)

/-- `CorrectorTrainer.compute_loss(model, inputs, return_outputs=False)`.
The `model` argument is accepted (per the base trainer's call shape) but, as in
the source, the held corrector model is the one invoked.  Returns the loss, the
caller's `inputs` dict as it stands after the call, and the trainer. -/
def CorrectorTrainer.compute_loss {Emb Loss GK : Type}
    (t : CorrectorTrainer Emb Loss GK) (model : Emb → Tensor2 → Tensor2 → Emb)
    (inputs : Batch Emb) (return_outputs : Bool) :
    GradM (Loss × Batch Emb × CorrectorTrainer Emb Loss GK) := do
  let batch_size := tRows inputs.input_ids
  let seq_length := tCols inputs.input_ids
  let fake_embedder_input_ids := onesTensor batch_size seq_length
  let fake_embedder_attention_mask := onesTensor batch_size seq_length
  let frozen_embeddings ← noGrad (callModel "call_embedding_model"
    (t.M.call_embedding_model inputs.embedder_input_ids
      inputs.embedder_attention_mask))
  let gen ← callModel "inversion_model.generate"
    (t.M.inversion_generate
      { embedder_input_ids := fake_embedder_input_ids
      , embedder_attention_mask := fake_embedder_attention_mask
      , frozen_embeddings := frozen_embeddings }
      computeLossGenerationKwargs)
  let eos_token_id := t.invModel.embedder_eos_token_id
  let hypothesis_input_ids := hypothesisInputIds gen batch_size eos_token_id
  let hypothesis_attention_mask :=
    neqMask hypothesis_input_ids t.invModel.embedder_pad_token_id
  let new_embeddings ← callModel "corrector_model"
    (t.M.corrector_model frozen_embeddings hypothesis_input_ids
      hypothesis_attention_mask)
  let loss ← callModel "inversion_model.forward"
    (t.M.inversion_forward fake_embedder_input_ids
      fake_embedder_attention_mask inputs.labels new_embeddings)
  pure (loss, inputs, t)

/-- `CorrectorTrainer.prediction_step(model, inputs, prediction_loss_only,
ignore_keys)`.  The device move builds a fresh mapping holding the same
tensors (devices are not modelled), so the caller's dict is untouched. -/
def CorrectorTrainer.prediction_step {Emb Loss GK : Type}
    (t : CorrectorTrainer Emb Loss GK) (model : Emb → Tensor2 → Tensor2 → Emb)
    (inputs : Batch Emb) (prediction_loss_only : Bool)
    (ignore_keys : Option (List String)) :
    GradM ((Option Loss × Option Tensor2 × Option Tensor2) ×
      CorrectorTrainer Emb Loss GK) := do
  let inputs := inputs
  let r ← noGrad (t.compute_loss model inputs false)
  pure ((some r.1, none, none), t)

/-- The corrected embedding `generate` computes: the correction model applied
to the frozen embedding (from `embedder_input_ids`/`embedder_attention_mask`)
together with the batch's `input_ids`/`attention_mask`. -/
def correctedEmbedding {Emb Loss GK : Type} (t : CorrectorTrainer Emb Loss GK)
    (inputs : Batch Emb) : Emb :=
  t.M.corrector_model
    (t.M.call_embedding_model inputs.embedder_input_ids
      inputs.embedder_attention_mask)
    inputs.input_ids inputs.attention_mask

/-- The raw frozen embedding `compute_loss` computes without gradient
tracking. -/
def rawFrozenEmbedding {Emb Loss GK : Type} (t : CorrectorTrainer Emb Loss GK)
    (inputs : Batch Emb) : Emb :=
  t.M.call_embedding_model inputs.embedder_input_ids
    inputs.embedder_attention_mask

/-- The construction invariant of claim C6: every inversion-model parameter is
non-trainable and the frozen-embeddings flag is set. -/
def frozenInvariant (m : InversionModel) : Prop :=
  (∀ b ∈ m.params_requires_grad, b = false) ∧
    m.use_frozen_embeddings_as_input = true

/-! ## Concrete instances used by witnesses and counterexamples -/

def M0 : ExternalModels Int Int Unit :=
  { call_embedding_model := fun _ _ => 0
  , corrector_model := fun e _ _ => e + 1
  , inversion_generate := fun _ _ => [[5, 6]]
  , inversion_forward := fun _ _ _ _ => 0
  , inversion_trainer_generate := fun _ _ => [[7]] }

def m0 : InversionModel :=
  { params_requires_grad := [true, true]
  , use_frozen_embeddings_as_input := false
  , embedder_eos_token_id := 2
  , embedder_pad_token_id := 0 }

def args0 : TrainingArguments := { fp16 := false, bf16 := false }

def t0 : CorrectorTrainer Int Int Unit :=
  { M := M0
  , invModel :=
    { params_requires_grad := [false, false]
    , use_frozen_embeddings_as_input := true
    , embedder_eos_token_id := 2
    , embedder_pad_token_id := 0 }
  , args := args0
  , inv_args := args0 }

def b0 : Batch Int :=
  { input_ids := [[1, 2]]
  , attention_mask := [[1, 1]]
  , embedder_input_ids := [[3, 4]]
  , embedder_attention_mask := [[1, 1]]
  , labels := [[3, 4]]
  , frozen_embeddings := none }

/-- Same shapes as `b0`; only the `input_ids` values differ. -/
def b0' : Batch Int := { b0 with input_ids := [[9, 8]] }

/-- The generation `compute_loss` requests from the inversion model: fake
all-ones embedder inputs of shape `(B, L)` together with the frozen
embedding. -/
def hypothesisGeneration {Emb Loss GK : Type} (t : CorrectorTrainer Emb Loss GK)
    (inputs : Batch Emb) (B L : Nat) : Tensor2 :=
  t.M.inversion_generate
    { embedder_input_ids := onesTensor B L
    , embedder_attention_mask := onesTensor B L
    , frozen_embeddings := rawFrozenEmbedding t inputs }
    computeLossGenerationKwargs

/-- The property claim C2 asserts of `compute_loss` on a batch whose
`input_ids` has shape `(B, L)`: the fake embedder tensors passed onward have
shape `(B, L)` and are filled with ones; the loss is the inversion forward
pass on exactly those fake tensors and the corrected embedding built from the
hypothesis ids; and the hypothesis ids are the generation with its first
column dropped and one eos appended per row, of shape `(B, L)` with eos as the
last entry of every row. -/
def C2Spec {Emb Loss GK : Type} (t : CorrectorTrainer Emb Loss GK)
    (inputs : Batch Emb) (B L : Nat) : Prop :=
  (tShape (onesTensor B L) B L ∧
    ∀ r ∈ onesTensor B L, ∀ x ∈ r, x = (1 : Int)) ∧
  (∀ (model : Emb → Tensor2 → Tensor2 → Emb) (ro : Bool) (s : GradState),
    ((t.compute_loss model inputs ro).run s).1.1 =
      t.M.inversion_forward (onesTensor B L) (onesTensor B L) inputs.labels
        (t.M.corrector_model (rawFrozenEmbedding t inputs)
          (hypothesisInputIds (hypothesisGeneration t inputs B L) B
            t.invModel.embedder_eos_token_id)
          (neqMask
            (hypothesisInputIds (hypothesisGeneration t inputs B L) B
              t.invModel.embedder_eos_token_id)
            t.invModel.embedder_pad_token_id))) ∧
  (hypothesisInputIds (hypothesisGeneration t inputs B L) B
      t.invModel.embedder_eos_token_id =
    (hypothesisGeneration t inputs B L).map
      (fun r => r.drop 1 ++ [t.invModel.embedder_eos_token_id])) ∧
  tShape
    (hypothesisInputIds (hypothesisGeneration t inputs B L) B
      t.invModel.embedder_eos_token_id) B L ∧
  (∀ r ∈ hypothesisInputIds (hypothesisGeneration t inputs B L) B
      t.invModel.embedder_eos_token_id,
    r.getLast? = some t.invModel.embedder_eos_token_id)

/-- A trainer whose inversion model generates a zero-column tensor, matching a
zero-column `input_ids` batch (the degenerate case refuting claim C2's shape
clause). -/
def t1 : CorrectorTrainer Int Int Unit :=
  { t0 with M := { M0 with inversion_generate := fun _ _ => [[]] } }

def b1 : Batch Int :=
  { input_ids := [[]]
  , attention_mask := [[]]
  , embedder_input_ids := [[3]]
  , embedder_attention_mask := [[1]]
  , labels := [[3]]
  , frozen_embeddings := none }

/-- The submission the launcher performs for shard `i` (when
`ACTUALLY_RUN_COMMAND` holds). -/
def launcherSubmission (dt : String) (i : Nat) : Submission :=
  { job_name := dt ++ " " ++ String.intercalate "."
      ["msmarco_precompute", toString (i * shard_length), toString shard_length]
  , cmd := (basePythonCmd (i * shard_length) shard_length).replace "\n" " "
  , kwargs := launcherSlurmKwargs
  , flags := ["requeue"] }

/-! ## Claim C1 -/

/-- C1: with `N_SHARDS = 32` and `MSMARCO_LENGTH = 8_753_404`, `shard_length`
is `273_544`; the generated `start_idx` values are exactly
`{i * 273_544 : i in 0..31}`, strictly increasing, each a multiple of
`shard_length`; the 32 half-open ranges of length `shard_length` are pairwise
disjoint; and the last shard reaches past `MSMARCO_LENGTH`. -/
theorem claim_C1 :
    shard_length = 273544 ∧
    start_idxs = (List.range 32).map (fun i => i * 273544) ∧
    List.Pairwise (fun a b => a < b) start_idxs ∧
    (∀ s ∈ start_idxs, shard_length ∣ s) ∧
    List.Pairwise
      (fun a b => a + shard_length ≤ b ∨ b + shard_length ≤ a) start_idxs ∧
    start_idxs.getLast? = some (31 * 273544) ∧
    MSMARCO_LENGTH ≤ 31 * 273544 + shard_length := by
  refine ⟨by decide, by decide, by decide, by decide, by decide, by decide, by decide⟩

/-! ## Helper lemmas -/

theorem flatten_map_nil {α β : Type} (l : List α) :
    (l.map (fun _ => ([] : List β))).flatten = [] := by
  induction l with
  | nil => rfl
  | cons a t ih => simp [ih]

theorem flatten_map_singleton {α β : Type} (l : List α) (g : α → β) :
    (l.map (fun a => [g a])).flatten = l.map g := by
  induction l with
  | nil => rfl
  | cons a t ih => simp [ih]

theorem getLast?_append_singleton {α : Type} (l : List α) (a : α) :
    (l ++ [a]).getLast? = some a := by
  induction l with
  | nil => rfl
  | cons b t ih =>
    rw [List.cons_append, List.getLast?_cons, ih]
    cases t <;> rfl

theorem hypothesisInputIds_eq_map (gen : Tensor2) (B : Nat) (eos : Int)
    (h : gen.length = B) :
    hypothesisInputIds gen B eos = gen.map (fun r => r.drop 1 ++ [eos]) := by
  subst h
  induction gen with
  | nil => rfl
  | cons r t ih =>
    simp only [hypothesisInputIds, dropFirstCol, eosTokens, hcat] at ih ⊢
    simp [List.replicate_succ, ih]

/-- The value component of a `compute_loss` run, spelled out. -/
theorem compute_loss_run_value {Emb Loss GK : Type}
    (t : CorrectorTrainer Emb Loss GK) (model : Emb → Tensor2 → Tensor2 → Emb)
    (inputs : Batch Emb) (ro : Bool) (s : GradState) :
    ((t.compute_loss model inputs ro).run s).1.1 =
      t.M.inversion_forward
        (onesTensor (tRows inputs.input_ids) (tCols inputs.input_ids))
        (onesTensor (tRows inputs.input_ids) (tCols inputs.input_ids))
        inputs.labels
        (t.M.corrector_model
          (t.M.call_embedding_model inputs.embedder_input_ids
            inputs.embedder_attention_mask)
          (hypothesisInputIds
            (t.M.inversion_generate
              { embedder_input_ids :=
                  onesTensor (tRows inputs.input_ids) (tCols inputs.input_ids)
              , embedder_attention_mask :=
                  onesTensor (tRows inputs.input_ids) (tCols inputs.input_ids)
              , frozen_embeddings :=
                  t.M.call_embedding_model inputs.embedder_input_ids
                    inputs.embedder_attention_mask }
              computeLossGenerationKwargs)
            (tRows inputs.input_ids) t.invModel.embedder_eos_token_id)
          (neqMask
            (hypothesisInputIds
              (t.M.inversion_generate
                { embedder_input_ids :=
                    onesTensor (tRows inputs.input_ids) (tCols inputs.input_ids)
                , embedder_attention_mask :=
                    onesTensor (tRows inputs.input_ids) (tCols inputs.input_ids)
                , frozen_embeddings :=
                    t.M.call_embedding_model inputs.embedder_input_ids
                      inputs.embedder_attention_mask }
                computeLossGenerationKwargs)
              (tRows inputs.input_ids) t.invModel.embedder_eos_token_id)
            t.invModel.embedder_pad_token_id)) := rfl

/-! ## Claim C3 -/

/-- C3: `generate` returns exactly the inversion trainer's `generate` applied
to the batch whose `frozen_embeddings` field is the correction model's output
(computed from the frozen embedding and the batch's
`input_ids`/`attention_mask`), not the raw frozen embedding. -/
theorem claim_C3 {Emb Loss GK : Type} (t : CorrectorTrainer Emb Loss GK)
    (inputs : Batch Emb) (gk : GK) (s : GradState) :
    ((t.generate inputs gk).run s).1.1 =
      t.M.inversion_trainer_generate
        { inputs with frozen_embeddings := some (correctedEmbedding t inputs) }
        gk := rfl

/-! ## Claim C4 -/

/-- C4 counterexample: run with gradient tracking enabled (the training-loop
ambient mode), `generate` does not execute entirely inside a no-gradient
context: the delegated `inversion_trainer.generate` call is recorded with
gradients enabled, because the source places it after the
`with torch.no_grad():` block. -/
theorem claim_C4_counterexample :
    (((CorrectorTrainer.generate t0 b0 ()).run
        { enabled := true, calls := [] }).2.calls.all (fun e => !e.2)) = false ∧
    ("inversion_trainer.generate", true) ∈
      ((CorrectorTrainer.generate t0 b0 ()).run
        { enabled := true, calls := [] }).2.calls := by
  exact ⟨rfl, by decide⟩

/-- C4 amended: the embedding step and the correction step run without
gradient tracking (inside the no-gradient context, which restores the caller's
mode on exit), but the delegated call to the inversion trainer's `generate`
executes outside that context, at the caller's ambient gradient mode. -/
theorem claim_C4_amended {Emb Loss GK : Type} (t : CorrectorTrainer Emb Loss GK)
    (inputs : Batch Emb) (gk : GK) (g : Bool) :
    ((t.generate inputs gk).run { enabled := g, calls := [] }).2 =
      { enabled := g
      , calls := [("call_embedding_model", false), ("corrector_model", false),
          ("inversion_trainer.generate", g)] } := rfl

/-! ## Claim C7 -/

/-- C7 counterexample: `compute_loss` does not write a `frozen_embeddings`
entry into the caller's batch: on a batch carrying no such entry, the batch is
returned unchanged, still with no entry. -/
theorem claim_C7_counterexample :
    b0.frozen_embeddings = none ∧
    ((CorrectorTrainer.compute_loss t0 (fun e _ _ => e) b0 false).run
        { enabled := true, calls := [] }).1.2.1 = b0 := ⟨rfl, rfl⟩

/-- C7 amended: `generate` mutates the caller-supplied inputs mapping in place
to attach the derived `frozen_embeddings` before delegating to the inversion
trainer; `compute_loss` does not mutate the caller's mapping at all — it hands
the derived embeddings to the inversion model directly. -/
theorem claim_C7_amended {Emb Loss GK : Type} (t : CorrectorTrainer Emb Loss GK)
    (inputs : Batch Emb) (gk : GK) (model : Emb → Tensor2 → Tensor2 → Emb)
    (ro : Bool) (s s' : GradState) :
    ((t.generate inputs gk).run s).1.2.1 =
      { inputs with frozen_embeddings := some (correctedEmbedding t inputs) } ∧
    ((t.compute_loss model inputs ro).run s').1.2.1 = inputs := ⟨rfl, rfl⟩

/-! ## Claim C9 -/

/-- C9: for every batch and every value of `prediction_loss_only` and
`ignore_keys`, `prediction_step` returns a 3-tuple whose first element is the
loss computed via `compute_loss` with gradient tracking disabled, and whose
second and third elements are always `none`; every model call it performs runs
with gradients disabled. -/
theorem claim_C9 {Emb Loss GK : Type} (t : CorrectorTrainer Emb Loss GK)
    (model : Emb → Tensor2 → Tensor2 → Emb) (inputs : Batch Emb)
    (plo : Bool) (ik : Option (List String)) (g : Bool) :
    (((t.prediction_step model inputs plo ik).run
        { enabled := g, calls := [] }).1.1.2.1 = none) ∧
    (((t.prediction_step model inputs plo ik).run
        { enabled := g, calls := [] }).1.1.2.2 = none) ∧
    (((t.prediction_step model inputs plo ik).run
        { enabled := g, calls := [] }).1.1.1 =
      some ((t.compute_loss model inputs false).run
        { enabled := false, calls := [] }).1.1) ∧
    ((((t.prediction_step model inputs plo ik).run
        { enabled := g, calls := [] }).2.calls.all (fun e => !e.2)) = true) :=
  ⟨rfl, rfl, rfl, rfl⟩

/-! ## Claim C2 -/

theorem tShape_onesTensor (B L : Nat) : tShape (onesTensor B L) B L := by
  constructor
  · simp [onesTensor]
  · intro r hr
    rw [List.eq_of_mem_replicate hr]
    simp

theorem onesTensor_all_one (B L : Nat) :
    ∀ r ∈ onesTensor B L, ∀ x ∈ r, x = (1 : Int) := by
  intro r hr x hx
  rw [List.eq_of_mem_replicate hr] at hx
  exact List.eq_of_mem_replicate hx

theorem tShape_hypothesisInputIds (gen : Tensor2) (B L : Nat) (eos : Int)
    (h : tShape gen B L) (hL : 1 ≤ L) :
    tShape (hypothesisInputIds gen B eos) B L := by
  rw [hypothesisInputIds_eq_map gen B eos h.1]
  constructor
  · simpa using h.1
  · intro r hr
    rcases List.mem_map.1 hr with ⟨r0, hr0, rfl⟩
    have hr0L := h.2 r0 hr0
    simp [hr0L]
    omega

theorem getLast_hypothesisInputIds (gen : Tensor2) (B : Nat) (eos : Int)
    (h : gen.length = B) :
    ∀ r ∈ hypothesisInputIds gen B eos, r.getLast? = some eos := by
  rw [hypothesisInputIds_eq_map gen B eos h]
  intro r hr
  rcases List.mem_map.1 hr with ⟨r0, _, rfl⟩
  exact getLast?_append_singleton _ _

/-- C2 counterexample: with a zero-column `input_ids` (shape `(1, 0)`) and a
generation of the same shape `(1, 0)` — so the claim's stated precondition
holds — the drop-first/append-eos transform yields shape `(1, 1)`, not
`(1, 0)`: the claim's shape clause fails for `L = 0`. -/
theorem claim_C2_counterexample :
    tRows b1.input_ids = 1 ∧ tCols b1.input_ids = 0 ∧
    tShape (hypothesisGeneration t1 b1 1 0) 1 0 ∧
    ¬ tShape
        (hypothesisInputIds (hypothesisGeneration t1 b1 1 0) 1
          t1.invModel.embedder_eos_token_id) 1 0 := by
  decide

/-- C2 amended: for a batch whose `input_ids` has shape `(B, L)` with
`1 ≤ L`, the fake embedder tensors are all-ones of shape `(B, L)` and are the
tensors passed onward, and — when the generation has shape `(B, L)` — the
hypothesis ids are the generation with its first column dropped and one eos
appended per row, again of shape `(B, L)`, with eos as every row's last
entry. -/
theorem claim_C2_amended {Emb Loss GK : Type} (t : CorrectorTrainer Emb Loss GK)
    (inputs : Batch Emb) (B L : Nat)
    (hrows : tRows inputs.input_ids = B) (hcols : tCols inputs.input_ids = L)
    (hL : 1 ≤ L) (hgen : tShape (hypothesisGeneration t inputs B L) B L) :
    C2Spec t inputs B L := by
  refine ⟨⟨tShape_onesTensor B L, onesTensor_all_one B L⟩, ?_,
    hypothesisInputIds_eq_map _ _ _ hgen.1,
    tShape_hypothesisInputIds _ _ _ _ hgen hL,
    getLast_hypothesisInputIds _ _ _ hgen.1⟩
  intro model ro s
  have h := compute_loss_run_value t model inputs ro s
  rw [hrows, hcols] at h
  exact h

/-- C2 witness: the amended claim instantiated at a concrete trainer and a
concrete `(1, 2)` batch. -/
theorem claim_C2_witness :
    (tRows b0.input_ids = 1 ∧ tCols b0.input_ids = 2 ∧ 1 ≤ 2 ∧
      tShape (hypothesisGeneration t0 b0 1 2) 1 2) ∧
    C2Spec t0 b0 1 2 :=
  ⟨by decide, claim_C2_amended t0 b0 1 2 rfl rfl (by decide) (by decide)⟩

/-! ## Claim C5 -/

/-- C5 counterexample: on a precision mismatch the construction does abort,
but the claim's "no construction side effects have taken effect" clause is
false — the caller's inversion model has already been mutated (frozen, flag
set) and the base trainer initialized when the assertion fires, because the
source places the two asserts at the very end of `__init__`. -/
theorem claim_C5_counterexample :
    ¬ (∀ (M : ExternalModels Int Int Unit) (m : InversionModel)
        (inv_args args : TrainingArguments),
        (args.fp16 ≠ inv_args.fp16 ∨ args.bf16 ≠ inv_args.bf16) →
        ((correctorInit M m inv_args args).result.isOk = false ∧
          (correctorInit M m inv_args args).invModel = m ∧
          (correctorInit M m inv_args args).baseInitialized = false)) := by
  intro h
  have h2 := h M0 m0 args0 { fp16 := true, bf16 := false } (Or.inl (by decide))
  have h4 : (correctorInit M0 m0 args0
      { fp16 := true, bf16 := false }).invModel.use_frozen_embeddings_as_input
      = true := rfl
  rw [h2.2.1] at h4
  exact absurd h4 (by decide)

/-- C5 amended: a precision-flag mismatch makes construction abort with an
assertion failure (no trainer value is produced), but by that point the
construction side effects have already taken effect: the inversion model's
parameters are frozen, its frozen-embeddings flag is set, and the base trainer
has been initialized. -/
theorem claim_C5_amended {Emb Loss GK : Type} (M : ExternalModels Emb Loss GK)
    (m : InversionModel) (inv_args args : TrainingArguments)
    (h : args.fp16 ≠ inv_args.fp16 ∨ args.bf16 ≠ inv_args.bf16) :
    (correctorInit M m inv_args args).result.isOk = false ∧
    (∀ b ∈ (correctorInit M m inv_args args).invModel.params_requires_grad,
      b = false) ∧
    (correctorInit M m inv_args args).invModel.use_frozen_embeddings_as_input
      = true ∧
    (correctorInit M m inv_args args).baseInitialized = true := by
  have hmem : ∀ b ∈ (freeze_params m).params_requires_grad, b = false := by
    intro b hb
    rcases List.mem_map.1 hb with ⟨a, _, rfl⟩
    rfl
  have hinv : (correctorInit M m inv_args args).invModel =
      { freeze_params m with use_frozen_embeddings_as_input := true } := by
    unfold correctorInit
    split
    · split <;> rfl
    · rfl
  have hbase : (correctorInit M m inv_args args).baseInitialized = true := by
    unfold correctorInit
    split
    · split <;> rfl
    · rfl
  refine ⟨?_, ?_, ?_, hbase⟩
  · by_cases h1 : args.fp16 = inv_args.fp16
    · by_cases h2 : args.bf16 = inv_args.bf16
      · rcases h with h | h <;> exact absurd (by assumption) h
      · simp [correctorInit, h1, h2, Except.isOk, Except.toBool]
    · simp [correctorInit, h1, Except.isOk, Except.toBool]
  · rw [hinv]
    exact hmem
  · rw [hinv]

/-- C5 witness: the amended claim at a concrete mismatched configuration. -/
theorem claim_C5_witness :
    (correctorInit M0 m0 args0 { fp16 := true, bf16 := false }).result.isOk
      = false ∧
    (∀ b ∈ (correctorInit M0 m0 args0
        { fp16 := true, bf16 := false }).invModel.params_requires_grad,
      b = false) ∧
    (correctorInit M0 m0 args0
        { fp16 := true, bf16 := false }).invModel.use_frozen_embeddings_as_input
      = true ∧
    (correctorInit M0 m0 args0
        { fp16 := true, bf16 := false }).baseInitialized = true :=
  claim_C5_amended M0 m0 args0 { fp16 := true, bf16 := false }
    (Or.inl (by decide))

/-! ## Claim C6 -/

/-- C6: after any successful construction, every inversion-model parameter is
non-trainable and the frozen-embeddings flag is set; and `generate`,
`compute_loss` and `prediction_step` all leave the trainer — inversion model
included — unchanged, so the invariant is preserved by every subsequent
operation. -/
theorem claim_C6 {Emb Loss GK : Type} (M : ExternalModels Emb Loss GK)
    (m : InversionModel) (inv_args args : TrainingArguments)
    (hfp : args.fp16 = inv_args.fp16) (hbf : args.bf16 = inv_args.bf16) :
    ∃ t : CorrectorTrainer Emb Loss GK,
      (correctorInit M m inv_args args).result = Except.ok t ∧
      frozenInvariant t.invModel ∧
      (∀ (inputs : Batch Emb) (gk : GK) (s : GradState),
        ((t.generate inputs gk).run s).1.2.2 = t) ∧
      (∀ (model : Emb → Tensor2 → Tensor2 → Emb) (inputs : Batch Emb)
        (ro : Bool) (s : GradState),
        ((t.compute_loss model inputs ro).run s).1.2.2 = t) ∧
      (∀ (model : Emb → Tensor2 → Tensor2 → Emb) (inputs : Batch Emb)
        (plo : Bool) (ik : Option (List String)) (s : GradState),
        ((t.prediction_step model inputs plo ik).run s).1.2 = t) := by
  refine ⟨{ M := M
          , invModel :=
            { freeze_params m with use_frozen_embeddings_as_input := true }
          , args := args, inv_args := inv_args }, ?_, ?_,
    fun _ _ _ => rfl, fun _ _ _ _ => rfl, fun _ _ _ _ _ => rfl⟩
  · simp [correctorInit, hfp, hbf]
  · refine ⟨?_, rfl⟩
    intro b hb
    rcases List.mem_map.1 hb with ⟨a, _, rfl⟩
    rfl

/-- C6 witness: a successful construction at a concrete matched
configuration. -/
theorem claim_C6_witness :
    ∃ t : CorrectorTrainer Int Int Unit,
      (correctorInit M0 m0 args0 args0).result = Except.ok t ∧
      frozenInvariant t.invModel ∧
      (∀ (inputs : Batch Int) (gk : Unit) (s : GradState),
        ((t.generate inputs gk).run s).1.2.2 = t) ∧
      (∀ (model : Int → Tensor2 → Tensor2 → Int) (inputs : Batch Int)
        (ro : Bool) (s : GradState),
        ((t.compute_loss model inputs ro).run s).1.2.2 = t) ∧
      (∀ (model : Int → Tensor2 → Tensor2 → Int) (inputs : Batch Int)
        (plo : Bool) (ik : Option (List String)) (s : GradState),
        ((t.prediction_step model inputs plo ik).run s).1.2 = t) :=
  claim_C6 M0 m0 args0 args0 rfl rfl

/-! ## Claim C8 -/

theorem flatten_eq_nil_of_forall {α β : Type} (l : List α) (g : α → List β)
    (h : ∀ a ∈ l, g a = []) : (l.map g).flatten = [] := by
  induction l with
  | nil => rfl
  | cons a t ih =>
    simp only [List.map_cons, List.flatten_cons, h a (List.mem_cons_self a t)]
    exact ih (fun a ha => h a (List.mem_cons_of_mem _ ha))

theorem flatten_eq_map_of_forall {α β : Type} (l : List α) (g : α → List β)
    (f : α → β) (h : ∀ a ∈ l, g a = [f a]) : (l.map g).flatten = l.map f := by
  induction l with
  | nil => rfl
  | cons a t ih =>
    rw [List.map_cons, List.flatten_cons, h a (List.mem_cons_self a t),
      List.singleton_append, List.map_cons,
      ih (fun a ha => h a (List.mem_cons_of_mem _ ha))]

theorem launcherRun_false_submissions (dt : String) :
    (launcherRun false dt).submissions = [] := by
  show (((List.range N_SHARDS).map (launcherStep false dt)).map
    Prod.snd).flatten = []
  rw [List.map_map]
  exact flatten_eq_nil_of_forall _ _ (fun i _ => rfl)

theorem launcherRun_true_submissions (dt : String) :
    (launcherRun true dt).submissions =
      (List.range N_SHARDS).map (launcherSubmission dt) := by
  show (((List.range N_SHARDS).map (launcherStep true dt)).map
    Prod.snd).flatten = _
  rw [List.map_map]
  exact flatten_eq_map_of_forall _ _ _ (fun i _ => rfl)

/-- C8: with `ACTUALLY_RUN_COMMAND = false`, the launcher performs zero
submissions and the final printed message carries the `"(pretend)"`
annotation and the count 32; with `ACTUALLY_RUN_COMMAND = true`, exactly 32
submissions are performed, each with wall time `"168:00:00"` and the
`requeue` flag, and the final message has no `"(pretend)"` annotation. -/
theorem claim_C8 (dt : String) :
    ((launcherRun false dt).submissions = [] ∧
      strContainsB (launcherRun false dt).finalMessage "(pretend)" = true ∧
      (launcherRun false dt).finalMessage =
        "successfully queued 32 jobs. (pretend)") ∧
    ((launcherRun true dt).submissions.length = 32 ∧
      (∀ sub ∈ (launcherRun true dt).submissions,
        sub.kwargs.time = "168:00:00" ∧ "requeue" ∈ sub.flags) ∧
      strContainsB (launcherRun true dt).finalMessage "(pretend)" = false ∧
      (launcherRun true dt).finalMessage = "successfully queued 32 jobs.") := by
  have hf : (launcherRun false dt).finalMessage = launcherFinalMessage false :=
    rfl
  have ht : (launcherRun true dt).finalMessage = launcherFinalMessage true :=
    rfl
  refine ⟨⟨launcherRun_false_submissions dt, ?_, ?_⟩, ?_, ?_, ?_, ?_⟩
  · rw [hf]; decide
  · rw [hf]; decide
  · rw [launcherRun_true_submissions]
    simp [N_SHARDS]
  · intro sub hsub
    rw [launcherRun_true_submissions] at hsub
    rcases List.mem_map.1 hsub with ⟨i, _, rfl⟩
    exact ⟨rfl, by simp [launcherSubmission]⟩
  · rw [ht]; decide
  · rw [ht]; decide

/-! ## Claim C10 -/

/-- C10: with all external models deterministic functions (as embedded),
`compute_loss` depends on the batch's `input_ids` only through its shape: two
batches agreeing on `embedder_input_ids`, `embedder_attention_mask` and
`labels`, whose `input_ids` merely share the shape `(B, L)`, yield the same
loss. -/
theorem claim_C10 {Emb Loss GK : Type} (t : CorrectorTrainer Emb Loss GK)
    (model : Emb → Tensor2 → Tensor2 → Emb) (ro : Bool) (s : GradState)
    (x1 x2 : Batch Emb)
    (h1 : x1.embedder_input_ids = x2.embedder_input_ids)
    (h2 : x1.embedder_attention_mask = x2.embedder_attention_mask)
    (h3 : x1.labels = x2.labels)
    (h4 : tRows x1.input_ids = tRows x2.input_ids)
    (h5 : tCols x1.input_ids = tCols x2.input_ids) :
    ((t.compute_loss model x1 ro).run s).1.1 =
      ((t.compute_loss model x2 ro).run s).1.1 := by
  rw [compute_loss_run_value, compute_loss_run_value, h1, h2, h3, h4, h5]

/-- C10 witness: two concrete batches with different `input_ids` values of the
same shape produce the same loss. -/
theorem claim_C10_witness :
    (b0.input_ids ≠ b0'.input_ids ∧
      b0.embedder_input_ids = b0'.embedder_input_ids ∧
      b0.embedder_attention_mask = b0'.embedder_attention_mask ∧
      b0.labels = b0'.labels ∧
      tRows b0.input_ids = tRows b0'.input_ids ∧
      tCols b0.input_ids = tCols b0'.input_ids) ∧
    ((CorrectorTrainer.compute_loss t0 (fun e _ _ => e) b0 false).run
        { enabled := true, calls := [] }).1.1 =
      ((CorrectorTrainer.compute_loss t0 (fun e _ _ => e) b0' false).run
        { enabled := true, calls := [] }).1.1 :=
  ⟨by decide,
    claim_C10 t0 (fun e _ _ => e) false { enabled := true, calls := [] }
      b0 b0' rfl rfl rfl rfl rfl⟩
